import Mathlib

/-!
Verification of the Altavista condominium-management models.

Shallow embedding of the business-rule methods of the Django models in
`app_altavista/models/`.  Times of day are minutes after midnight (`Nat`),
money amounts are exact rationals (`ℚ`, the `Decimal` arithmetic used by the
source is exact at the scales involved), calendar dates are explicit
year/month/day triples with proleptic Gregorian arithmetic, matching Python's
`datetime.date`.  Methods that can raise (`ValueError`) return `Except String`.
Database side effects are made explicit: the set of related rows a method
reads or writes is passed in and returned.
-/

namespace Altavista

/-! ## Calendar dates (Python `datetime.date`) -/

/-- A calendar date, as Python's `datetime.date` (proleptic Gregorian). -/
structure SimpleDate where
  year : Nat
  month : Nat
  day : Nat
deriving DecidableEq, Repr

/-- Gregorian leap year, as Python's `calendar.isleap`. -/
def isLeap (y : Nat) : Prop :=
  (y % 4 = 0 ∧ y % 100 ≠ 0) ∨ y % 400 = 0

instance (y : Nat) : Decidable (isLeap y) := by
  unfold isLeap; infer_instance

/-- Number of days in a month, as `calendar.monthrange(y, m)[1]`. -/
def daysInMonth (y m : Nat) : Nat :=
  if m = 2 then (if isLeap y then 29 else 28)
  else if m = 4 ∨ m = 6 ∨ m = 9 ∨ m = 11 then 30
  else 31

/-- 1 in a leap year, 0 otherwise. -/
def leapDay (y : Nat) : Nat := if isLeap y then 1 else 0

/-- Days of year `y` that precede month `m` (0 for January). -/
def daysBeforeMonth (y m : Nat) : Nat :=
  if m ≤ 1 then 0
  else if m = 2 then 31
  else if m = 3 then 59 + leapDay y
  else if m = 4 then 90 + leapDay y
  else if m = 5 then 120 + leapDay y
  else if m = 6 then 151 + leapDay y
  else if m = 7 then 181 + leapDay y
  else if m = 8 then 212 + leapDay y
  else if m = 9 then 243 + leapDay y
  else if m = 10 then 273 + leapDay y
  else if m = 11 then 304 + leapDay y
  else 334 + leapDay y

/-- A date is valid when Python's `datetime.date(y, m, d)` accepts it
(we do not bound the year above). -/
def validDate (d : SimpleDate) : Prop :=
  1 ≤ d.year ∧ 1 ≤ d.month ∧ d.month ≤ 12 ∧ 1 ≤ d.day ∧ d.day ≤ daysInMonth d.year d.month

instance (d : SimpleDate) : Decidable (validDate d) := by
  unfold validDate; infer_instance

/-- Python `datetime.date(y, m, d)`: `some` on valid input, `none`
models the `ValueError` raise. -/
def mkDate (y m d : Nat) : Option SimpleDate :=
  if validDate ⟨y, m, d⟩ then some ⟨y, m, d⟩ else none

/-- Rata-die ordinal of a date, Python's `date.toordinal`
(`0001-01-01` has ordinal 1). -/
def toOrdinal (d : SimpleDate) : Nat :=
  365 * (d.year - 1) + (d.year - 1) / 4 + (d.year - 1) / 400
    + daysBeforeMonth d.year d.month + d.day - (d.year - 1) / 100

/-- Python `date.weekday()`: Monday is 0, Sunday is 6. -/
def weekday (d : SimpleDate) : Nat :=
  (toOrdinal d + 6) % 7

/-- The day after `d`. -/
def succDate (d : SimpleDate) : SimpleDate :=
  if d.day < daysInMonth d.year d.month then ⟨d.year, d.month, d.day + 1⟩
  else if d.month < 12 then ⟨d.year, d.month + 1, 1⟩
  else ⟨d.year + 1, 1, 1⟩

/-- `d + datetime.timedelta(days := n)`. -/
def addDays (d : SimpleDate) (n : Nat) : SimpleDate :=
  succDate^[n] d

/-- Python's `<` on dates (calendar order = lexicographic on y, m, d). -/
def dateLt (a b : SimpleDate) : Prop :=
  a.year < b.year ∨ (a.year = b.year ∧ a.month < b.month)
    ∨ (a.year = b.year ∧ a.month = b.month ∧ a.day < b.day)

instance (a b : SimpleDate) : Decidable (dateLt a b) := by
  unfold dateLt; infer_instance

lemma daysInMonth_pos (y m : Nat) : 1 ≤ daysInMonth y m := by
  unfold daysInMonth
  split_ifs <;> omega

lemma daysBeforeMonth_step (y m : Nat) (h1 : 1 ≤ m) (h11 : m ≤ 11) :
    daysBeforeMonth y (m + 1) = daysBeforeMonth y m + daysInMonth y m := by
  interval_cases m <;>
    norm_num [daysBeforeMonth, daysInMonth, leapDay] <;>
    split_ifs <;> omega

lemma validDate_succDate {d : SimpleDate} (h : validDate d) : validDate (succDate d) := by
  obtain ⟨y, m, dd⟩ := d
  obtain ⟨hy, hm1, hm12, hd1, hd2⟩ := h
  unfold succDate
  dsimp only at *
  split_ifs with h1 h2
  · refine ⟨hy, hm1, hm12, ?_, ?_⟩
    · show 1 ≤ dd + 1
      omega
    · show dd + 1 ≤ daysInMonth y m
      omega
  · refine ⟨hy, ?_, ?_, ?_, ?_⟩
    · show 1 ≤ m + 1
      omega
    · show m + 1 ≤ 12
      omega
    · show 1 ≤ 1
      omega
    · show 1 ≤ daysInMonth y (m + 1)
      exact daysInMonth_pos _ _
  · refine ⟨?_, ?_, ?_, ?_, ?_⟩
    · show 1 ≤ y + 1
      omega
    · show 1 ≤ 1
      omega
    · show 1 ≤ 12
      omega
    · show 1 ≤ 1
      omega
    · show 1 ≤ daysInMonth (y + 1) 1
      exact daysInMonth_pos _ _

set_option maxHeartbeats 1000000 in
lemma toOrdinal_succDate {d : SimpleDate} (h : validDate d) :
    toOrdinal (succDate d) = toOrdinal d + 1 := by
  obtain ⟨y, m, dd⟩ := d
  obtain ⟨hy, hm1, hm12, hd1, hd2⟩ := h
  dsimp only at *
  unfold succDate
  dsimp only
  split_ifs with h1 h2
  · unfold toOrdinal
    dsimp only
    omega
  · -- month rollover: the day is the last of the month
    have hday : dd = daysInMonth y m := by omega
    have hstep := daysBeforeMonth_step y m hm1 (by omega)
    unfold toOrdinal
    dsimp only
    omega
  · -- year rollover: 31 December
    have hm : m = 12 := by omega
    have h31 : daysInMonth y 12 = 31 := by norm_num [daysInMonth]
    subst hm
    have hday : dd = 31 := by omega
    subst hday
    unfold toOrdinal
    dsimp only
    have hb1 : daysBeforeMonth (y + 1) 1 = 0 := by norm_num [daysBeforeMonth]
    have hb12 : daysBeforeMonth y 12 = 334 + leapDay y := by
      norm_num [daysBeforeMonth]
    rw [hb1, hb12]
    by_cases hL : isLeap y
    · have h1 : leapDay y = 1 := by simp [leapDay, hL]
      unfold isLeap at hL
      omega
    · have h0 : leapDay y = 0 := by simp [leapDay, hL]
      unfold isLeap at hL
      omega

lemma validDate_addDays {d : SimpleDate} (h : validDate d) (n : Nat) :
    validDate (addDays d n) := by
  induction n with
  | zero => exact h
  | succ k ih =>
      have hstep : addDays d (k + 1) = succDate (addDays d k) :=
        Function.iterate_succ_apply' succDate k d
      rw [hstep]
      exact validDate_succDate ih

lemma toOrdinal_addDays {d : SimpleDate} (h : validDate d) (n : Nat) :
    toOrdinal (addDays d n) = toOrdinal d + n := by
  induction n with
  | zero => rfl
  | succ k ih =>
      have hstep : addDays d (k + 1) = succDate (addDays d k) :=
        Function.iterate_succ_apply' succDate k d
      rw [hstep, toOrdinal_succDate (validDate_addDays h k), ih]
      omega

lemma weekday_addDays {d : SimpleDate} (h : validDate d) (n : Nat) :
    weekday (addDays d n) = (weekday d + n) % 7 := by
  unfold weekday
  rw [toOrdinal_addDays h n]
  omega

lemma weekday_lt_7 (d : SimpleDate) : weekday d < 7 := by
  unfold weekday; omega

/-! ## `app_altavista/models/vivienda.py` and `CuotaAdministracion`
(`app_altavista/models/administracion.py`) -/

/-- The fields of `Vivienda` used by the fee computations. -/
structure Vivienda where
  coeficiente_propiedad : ℚ
deriving DecidableEq, Repr

/-- The fields of `CuotaAdministracion` used by the fee computations. -/
structure CuotaAdministracion where
  valor_base : ℚ
  fecha_vencimiento : SimpleDate
  recargo_mora : ℚ
deriving DecidableEq, Repr

/-- `CuotaAdministracion.esta_vencida`: `self.fecha_vencimiento < timezone.now().date()`.
The current date is the explicit parameter `hoy`. -/
def CuotaAdministracion.esta_vencida (c : CuotaAdministracion) (hoy : SimpleDate) : Prop :=
  dateLt c.fecha_vencimiento hoy

instance (c : CuotaAdministracion) (hoy : SimpleDate) : Decidable (c.esta_vencida hoy) := by
  unfold CuotaAdministracion.esta_vencida; infer_instance

/-- `CuotaAdministracion.calcular_valor_vivienda`:
`self.valor_base * vivienda.coeficiente_propiedad`. -/
def CuotaAdministracion.calcular_valor_vivienda (c : CuotaAdministracion) (v : Vivienda) : ℚ :=
  c.valor_base * v.coeficiente_propiedad

/-- `CuotaAdministracion.calcular_valor_con_mora`: the base value, plus a
`recargo_mora`-percent surcharge when the due date has passed. -/
def CuotaAdministracion.calcular_valor_con_mora
    (c : CuotaAdministracion) (v : Vivienda) (hoy : SimpleDate) : ℚ :=
  let valor_base := c.calcular_valor_vivienda v
  if c.esta_vencida hoy then valor_base + valor_base * (c.recargo_mora / 100)
  else valor_base

/-- `Vivienda.calcular_valor_cuota`: `cuota.valor_base * self.coeficiente_propiedad`. -/
def Vivienda.calcular_valor_cuota (v : Vivienda) (c : CuotaAdministracion) : ℚ :=
  c.valor_base * v.coeficiente_propiedad

/-! ## `IngresoGasto` (`app_altavista/models/finanzas.py`) -/

/-- `IngresoGasto.TIPO_CHOICES`. -/
inductive TipoMovimiento where
  | ingreso
  | gasto
deriving DecidableEq, Repr

/-- `IngresoGasto.ESTADO_CHOICES`. -/
inductive EstadoTransaccion where
  | registrado
  | verificado
  | anulado
deriving DecidableEq, Repr

/-- The fields of `IngresoGasto` touched by `save`, `anular` and the
payment-ledger side effects.  `pago` is the primary key of the related
`PagoAdministracion`, if any. -/
structure IngresoGasto where
  fecha : SimpleDate
  tipo : TipoMovimiento
  categoria : String
  descripcion : String
  monto : ℚ
  pago : Option Nat
  estado : EstadoTransaccion
deriving DecidableEq, Repr

/-- `IngresoGasto.save`: raises `ValueError` when `monto <= 0`, stores a
`gasto` with its `monto` negated, and otherwise persists the instance
unchanged. -/
def IngresoGasto.save (t : IngresoGasto) : Except String IngresoGasto :=
  if t.monto ≤ 0 then .error "El monto debe ser positivo"
  else
    let t := if t.tipo = .gasto ∧ 0 < t.monto then { t with monto := -t.monto } else t
    .ok t

/-- `IngresoGasto.objects.create(...)`: Django `create` builds the instance
and calls its `save`, so the `ValueError` of `save` propagates. -/
def IngresoGasto.create (t : IngresoGasto) (ledger : List IngresoGasto) :
    Except String (List IngresoGasto × IngresoGasto) := do
  let t' ← t.save
  .ok (ledger ++ [t'], t')

/-- `IngresoGasto.anular`: returns `False` when already voided, otherwise
marks the transaction `anulado` (appending the reason to the description
when one is given) and saves it. -/
def IngresoGasto.anular (t : IngresoGasto) (motivo : Option String) :
    Except String (Bool × IngresoGasto) :=
  if t.estado = .anulado then .ok (false, t)
  else
    let t := { t with estado := .anulado }
    let t := match motivo with
      | some m =>
          -- `if motivo:` — a non-empty string is truthy
          if m ≠ "" then { t with descripcion := t.descripcion ++ "\n[ANULADO] " ++ m }
          else t
      | none => t
    match t.save with
    | .error e => .error e
    | .ok t' => .ok (true, t')

/-! ## `FondoReserva` (`app_altavista/models/finanzas.py`) -/

/-- The fields of `FondoReserva` used by `registrar_aporte` / `registrar_uso`. -/
structure FondoReserva where
  nombre : String
  monto_actual : ℚ
deriving DecidableEq, Repr

/-- A `MovimientoFondo` row as created by the two `registrar_*` methods
(the `fondo` foreign key and the auto-now date are left implicit). -/
structure MovimientoFondo where
  tipo : TipoMovimiento
  monto : ℚ
  descripcion : String
deriving DecidableEq, Repr

/-- Python's `descripcion or default` for an optional string argument. -/
def orDefault (descripcion : Option String) (default : String) : String :=
  match descripcion with
  | some s => if s ≠ "" then s else default
  | none => default

/-- `FondoReserva.registrar_aporte`: raises on a non-positive amount,
otherwise adds it to `monto_actual` and records an `ingreso` movement. -/
def FondoReserva.registrar_aporte (f : FondoReserva) (monto : ℚ)
    (descripcion : Option String) : Except String (FondoReserva × MovimientoFondo) :=
  if monto ≤ 0 then .error "El monto debe ser positivo"
  else
    let f := { f with monto_actual := f.monto_actual + monto }
    .ok (f, ⟨.ingreso, monto, orDefault descripcion ("Aporte al fondo " ++ f.nombre)⟩)

/-- `FondoReserva.registrar_uso`: raises on a non-positive amount or on an
amount above the fund's balance, otherwise subtracts it and records a
`gasto` movement. -/
def FondoReserva.registrar_uso (f : FondoReserva) (monto : ℚ)
    (descripcion : String) : Except String (FondoReserva × MovimientoFondo) :=
  if monto ≤ 0 then .error "El monto debe ser positivo"
  else if monto > f.monto_actual then .error "No hay suficiente dinero en el fondo"
  else
    let f := { f with monto_actual := f.monto_actual - monto }
    .ok (f, ⟨.gasto, monto, descripcion⟩)

/-! ## `SeguimientoIncidencia` (`app_altavista/models/incidencia.py`) -/

/-- The fields of `SeguimientoIncidencia` used by `notificar_propietario`. -/
structure SeguimientoIncidencia where
  estado_actual : String
  comentario : String
  visible_para_propietario : Bool
deriving DecidableEq, Repr

/-- `SeguimientoIncidencia.notificar_propietario`: the notification logic is
stubbed in the source (a comment only), so the method just returns `False`
for followups hidden from the owner and `True` otherwise; the state is
untouched. -/
def SeguimientoIncidencia.notificar_propietario (s : SeguimientoIncidencia) :
    Bool × SeguimientoIncidencia :=
  if ¬s.visible_para_propietario then (false, s)
  else (true, s)

/-! ## `AreaComun` and `Reserva`
(`app_altavista/models/area_comun.py`, `app_altavista/models/reserva.py`)

Times of day (`TimeField`) are minutes after midnight. -/

/-- `Reserva.ESTADO_CHOICES`. -/
inductive EstadoReserva where
  | pendiente
  | confirmada
  | cancelada
  | completada
  | no_asistio
deriving DecidableEq, Repr

/-- The fields of a stored `Reserva` row read by
`AreaComun.esta_disponible`. -/
structure ReservaRow where
  fecha_reserva : SimpleDate
  hora_inicio : Nat
  hora_fin : Nat
  estado : EstadoReserva
deriving DecidableEq, Repr

/-- The fields of `AreaComun` used by `esta_disponible`;
`none` models a NULL `horario`. -/
structure AreaComun where
  requiere_reserva : Bool
  esta_activa : Bool
  horario_apertura : Option Nat
  horario_cierre : Option Nat
  tarifa : ℚ
deriving DecidableEq, Repr

/-- `AreaComun.esta_disponible(fecha, hora_inicio, hora_fin)`.
`reservas` is the area's related `Reserva` set.  The collision filter is
translated clause by clause; note that in the third `Q` object the source
compares `hora_inicio`/`hora_fin` with `models.F("hora_inicio")` /
`models.F("hora_fin")`, i.e. each stored row's own columns with themselves. -/
def AreaComun.esta_disponible (a : AreaComun) (reservas : List ReservaRow)
    (fecha : SimpleDate) (hora_inicio hora_fin : Nat) : Bool :=
  if ¬a.requiere_reserva ∨ ¬a.esta_activa then false
  else if ((match a.horario_apertura with
            | some apertura => decide (hora_inicio < apertura)
            | none => false)
        || (match a.horario_cierre with
            | some cierre => decide (hora_fin > cierre)
            | none => false)) = true then false
  else
    let colisiones := reservas.any (fun r =>
      decide (r.fecha_reserva = fecha) && decide (r.estado = .confirmada) &&
        (   (decide (r.hora_inicio < hora_fin) && decide (r.hora_fin > hora_inicio))
         || (decide (r.hora_inicio < hora_fin) && decide (r.hora_fin > hora_inicio))
         || (decide (r.hora_inicio ≤ r.hora_inicio) && decide (r.hora_fin ≥ r.hora_fin))))
    !colisiones

/-- Availability as the claim states it (spec wording, for comparison with
`AreaComun.esta_disponible`): the area takes reservations and is active, the
slot respects each configured `horario`, and no *overlapping* confirmed
reservation of the same date exists (`hora_inicio < hora_fin` of the request
and `hora_fin > hora_inicio`). -/
def claimDisponible (a : AreaComun) (reservas : List ReservaRow)
    (fecha : SimpleDate) (hora_inicio hora_fin : Nat) : Bool :=
  a.requiere_reserva && a.esta_activa
    && (match a.horario_apertura with
        | some apertura => decide (apertura ≤ hora_inicio)
        | none => true)
    && (match a.horario_cierre with
        | some cierre => decide (hora_fin ≤ cierre)
        | none => true)
    && !(reservas.any (fun r =>
          decide (r.fecha_reserva = fecha) && decide (r.estado = .confirmada) &&
            decide (r.hora_inicio < hora_fin) && decide (r.hora_fin > hora_inicio)))

/-- The in-memory state of a `Reserva` touched by its transition methods.
`fecha_confirmacion` is an abstract timestamp; `initial_values` mirrors the
`_initial_values` dict written by `save` (`none` = empty dict). -/
structure Reserva where
  pk : Option Nat
  fecha_reserva : SimpleDate
  hora_inicio : Nat
  hora_fin : Nat
  estado : EstadoReserva
  observaciones : Option String
  fecha_confirmacion : Option Nat
  confirmada_por : Option Nat
  costo : ℚ
  initial_values : Option (SimpleDate × Nat × Nat)
deriving DecidableEq, Repr

/-- `Reserva.save`.  `db_row` is what `Reserva.objects.get(id=self.id)`
returns for the current id (`none` = `DoesNotExist`, which includes the
unsaved case `id = None`); `tarifa` is `self.area.tarifa` and `now` the
current timestamp.  The method stores the previous date/time values in
`_initial_values`, stamps `fecha_confirmacion` on first confirmation, and
copies the area's fee into `costo` when unset. -/
def Reserva.save (r : Reserva) (db_row : Option (SimpleDate × Nat × Nat))
    (tarifa : ℚ) (now : Nat) : Reserva :=
  let r := { r with initial_values := db_row }
  let r := if r.estado = .confirmada ∧ r.fecha_confirmacion = none then
             { r with fecha_confirmacion := some now }
           else r
  let r := if 0 < tarifa ∧ r.costo = 0 then { r with costo := tarifa } else r
  r

/-- `Reserva.cancelar(observacion)`. -/
def Reserva.cancelar (r : Reserva) (observacion : Option String)
    (db_row : Option (SimpleDate × Nat × Nat)) (tarifa : ℚ) (now : Nat) :
    Bool × Reserva :=
  if r.estado ≠ .pendiente ∧ r.estado ≠ .confirmada then (false, r)
  else
    let r := { r with estado := .cancelada }
    let r := match observacion with
      | some o =>
          if o ≠ "" then
            let obs := (r.observaciones.getD "") ++ "\n[Cancelación] " ++ o
            { r with observaciones := some obs }
          else r
      | none => r
    (true, r.save db_row tarifa now)

/-- `Reserva.confirmar(empleado, observacion)`. -/
def Reserva.confirmar (r : Reserva) (empleado : Nat) (observacion : Option String)
    (db_row : Option (SimpleDate × Nat × Nat)) (tarifa : ℚ) (now : Nat) :
    Bool × Reserva :=
  if r.estado ≠ .pendiente then (false, r)
  else
    let r := { r with estado := .confirmada, confirmada_por := some empleado,
                      fecha_confirmacion := some now }
    let r := match observacion with
      | some o =>
          if o ≠ "" then
            let obs := (r.observaciones.getD "") ++ "\n[Confirmación] " ++ o
            { r with observaciones := some obs }
          else r
      | none => r
    (true, r.save db_row tarifa now)

/-- `Reserva.marcar_completada()`. -/
def Reserva.marcar_completada (r : Reserva)
    (db_row : Option (SimpleDate × Nat × Nat)) (tarifa : ℚ) (now : Nat) :
    Bool × Reserva :=
  if r.estado ≠ .confirmada then (false, r)
  else
    let r := { r with estado := .completada }
    (true, r.save db_row tarifa now)

/-- `Reserva.marcar_no_asistio()`. -/
def Reserva.marcar_no_asistio (r : Reserva)
    (db_row : Option (SimpleDate × Nat × Nat)) (tarifa : ℚ) (now : Nat) :
    Bool × Reserva :=
  if r.estado ≠ .confirmada then (false, r)
  else
    let r := { r with estado := .no_asistio }
    (true, r.save db_row tarifa now)

/-! ## `Mantenimiento` (`app_altavista/models/mantenimiento.py`) -/

/-- `Mantenimiento.ESTADO_CHOICES`. -/
inductive EstadoMantenimiento where
  | programado
  | en_proceso
  | finalizado
  | cancelado
deriving DecidableEq, Repr

/-- The fields of `Mantenimiento` touched by its transition methods.
`incidencia_estado` is the state of the related `Incidencia` (`none` when the
foreign key is NULL). -/
structure Mantenimiento where
  titulo : String
  estado : EstadoMantenimiento
  fecha_inicio : Option SimpleDate
  fecha_finalizacion : Option SimpleDate
  costo_final : Option ℚ
  observaciones : Option String
  incidencia_estado : Option String
  proveedor : Option Nat
deriving DecidableEq, Repr

/-- `Mantenimiento.save`: stamps `fecha_inicio` / `fecha_finalizacion` when
missing for the matching state, and resolves the related incident on
finalization. -/
def Mantenimiento.save (m : Mantenimiento) (hoy : SimpleDate) : Mantenimiento :=
  let m := if m.estado = .en_proceso ∧ m.fecha_inicio = none then
             { m with fecha_inicio := some hoy }
           else m
  let m := if m.estado = .finalizado ∧ m.fecha_finalizacion = none then
             { m with fecha_finalizacion := some hoy }
           else m
  let m := if m.incidencia_estado ≠ none ∧ m.estado = .finalizado then
             { m with incidencia_estado := some "resuelta" }
           else m
  m

/-- `Mantenimiento.iniciar()`. -/
def Mantenimiento.iniciar (m : Mantenimiento) (hoy : SimpleDate) :
    Bool × Mantenimiento :=
  if m.estado ≠ .programado then (false, m)
  else
    let m := { m with estado := .en_proceso, fecha_inicio := some hoy }
    (true, m.save hoy)

/-- `Mantenimiento.finalizar(costo_final, observaciones)`.  The `gasto`
ledger entry the method creates when the final cost is positive is returned
as the third component (`IngresoGasto.objects.create` calls
`IngresoGasto.save`, whose outcome is an `Except`). -/
def Mantenimiento.finalizar (m : Mantenimiento) (hoy : SimpleDate)
    (costo_final : Option ℚ) (observaciones : Option String) :
    Bool × Mantenimiento × Option (Except String IngresoGasto) :=
  if m.estado ≠ .programado ∧ m.estado ≠ .en_proceso then (false, m, none)
  else
    let m := { m with estado := .finalizado, fecha_finalizacion := some hoy }
    let m := match costo_final with
      | some cf => { m with costo_final := some cf }
      | none => m
    let m := match observaciones with
      | some o =>
          if o ≠ "" then
            let obs := (m.observaciones.getD "") ++ "\n[FINALIZACIÓN] " ++ o
            { m with observaciones := some obs }
          else m
      | none => m
    let m := m.save hoy
    -- `if self.costo_final and self.costo_final > 0:` — register the expense
    let gasto := match m.costo_final with
      | some cf =>
          if cf ≠ 0 ∧ 0 < cf then
            some (IngresoGasto.save
              ⟨m.fecha_finalizacion.getD hoy, .gasto, "mantenimiento",
                "Mantenimiento: " ++ m.titulo, cf, none, .registrado⟩)
          else none
      | none => none
    (true, m, gasto)

/-- `Mantenimiento.cancelar(motivo)`. -/
def Mantenimiento.cancelar (m : Mantenimiento) (hoy : SimpleDate)
    (motivo : Option String) : Bool × Mantenimiento :=
  if m.estado = .finalizado ∨ m.estado = .cancelado then (false, m)
  else
    let m := { m with estado := .cancelado }
    let m := match motivo with
      | some o =>
          if o ≠ "" then
            let obs := (m.observaciones.getD "") ++ "\n[CANCELACIÓN] " ++ o
            { m with observaciones := some obs }
          else m
      | none => m
    (true, m.save hoy)

/-! ## `ProgramacionMantenimiento` (`app_altavista/models/mantenimiento.py`) -/

/-- `ProgramacionMantenimiento.FRECUENCIA_CHOICES`. -/
inductive Frecuencia where
  | diaria
  | semanal
  | quincenal
  | mensual
  | trimestral
  | semestral
  | anual
deriving DecidableEq, Repr

/-- The fields of `ProgramacionMantenimiento` read by
`_calcular_proxima_fecha`. -/
structure ProgramacionMantenimiento where
  frecuencia : Frecuencia
  dia_semana : Option Nat
  dia_mes : Option Nat
  ultima_generacion : Option SimpleDate
deriving DecidableEq, Repr

/-- Python truthiness of an optional integer field:
`None` and `0` are falsy. -/
def pyTruthy (o : Option Nat) : Bool :=
  match o with
  | none => false
  | some n => decide (n ≠ 0)

/-- `ProgramacionMantenimiento._ultimo_dia_mes`:
`calendar.monthrange(año, mes)[1]`. -/
def ultimo_dia_mes (anio mes : Nat) : Nat :=
  daysInMonth anio mes

/-- The month following `hoy`'s month. -/
def nextMes (hoy : SimpleDate) : Nat :=
  if hoy.month = 12 then 1 else hoy.month + 1

/-- The year of the month following `hoy`'s month. -/
def nextAnio (hoy : SimpleDate) : Nat :=
  if hoy.month = 12 then hoy.year + 1 else hoy.year

/-- The `except ValueError` branch of the `"mensual"` case of
`_calcular_proxima_fecha`: move to the next month and clamp days past 28
to the month's length. -/
def mensualExcept (hoy : SimpleDate) (dia_mes : Nat) : Option SimpleDate :=
  let mes := nextMes hoy
  let anio := nextAnio hoy
  if dia_mes > 28 then
    some ⟨anio, mes, min dia_mes (ultimo_dia_mes anio mes)⟩
  else
    some ⟨anio, mes, dia_mes⟩

/-- `ProgramacionMantenimiento._calcular_proxima_fecha`.  The current date
is the parameter `hoy`.  The `try`/`except ValueError` of the `"mensual"`
branch is modelled through `mkDate` returning `none` on an invalid date.
The source handles `"trimestral"`, `"semestral"` and `"anual"` with a
comment only and falls through to `return None`. -/
def calcular_proxima_fecha (p : ProgramacionMantenimiento) (hoy : SimpleDate) :
    Option SimpleDate :=
  match p.frecuencia with
  | .diaria => some hoy
  | .semanal =>
      if ¬pyTruthy p.dia_semana then none
      else
        let ds := p.dia_semana.getD 0
        let dias_agregar := ((((ds : Int) - (weekday hoy : Int) - 1) % 7)).toNat
        some (addDays hoy dias_agregar)
  | .quincenal =>
      if ¬pyTruthy p.dia_semana then none
      else
        let ds := p.dia_semana.getD 0
        let dias_agregar := ((((ds : Int) - (weekday hoy : Int) - 1) % 7)).toNat
        let proxima := addDays hoy dias_agregar
        match p.ultima_generacion with
        | some ug =>
            if (toOrdinal proxima : Int) - (toOrdinal ug : Int) < 14 then
              some (addDays proxima 7)
            else some proxima
        | none => some proxima
  | .mensual =>
      if ¬pyTruthy p.dia_mes then none
      else
        let dm := p.dia_mes.getD 0
        match mkDate hoy.year hoy.month dm with
        | some proxima =>
            if dateLt proxima hoy then
              match (if hoy.month = 12 then mkDate (hoy.year + 1) 1 dm
                     else mkDate hoy.year (hoy.month + 1) dm) with
              | some proxima2 => some proxima2
              | none => mensualExcept hoy dm
            else some proxima
        | none => mensualExcept hoy dm
  | _ => none

/-! ## `PagoAdministracion` (`app_altavista/models/administracion.py`) -/

/-- `PagoAdministracion.ESTADO_CHOICES`. -/
inductive EstadoPago where
  | registrado
  | confirmado
  | rechazado
deriving DecidableEq, Repr

/-- The fields of `PagoAdministracion` used by `save` and its ledger side
effects.  `initial_values` mirrors the `_initial_values` attribute:
`none` when the attribute is absent, `some d` for a dict whose `"estado"`
entry is `d` (`some none` = empty dict). -/
structure PagoAdministracion where
  pk : Option Nat
  vivienda : Vivienda
  cuota : CuotaAdministracion
  fecha_pago : SimpleDate
  monto_pagado : ℚ
  estado : EstadoPago
  initial_values : Option (Option EstadoPago)
deriving DecidableEq, Repr

/-- `self._initial_values.get("estado")` (meaningful only when the
attribute exists). -/
def PagoAdministracion.initialEstado (p : PagoAdministracion) : Option EstadoPago :=
  match p.initial_values with
  | some d => d
  | none => none

/-- `PagoAdministracion._registrar_ingreso`: inserts the payment as a
`cuota_administracion` income row (the interpolated `str` forms of the
vivienda and the cuota in the description are elided). -/
def PagoAdministracion.registrarIngreso (p : PagoAdministracion)
    (ledger : List IngresoGasto) : Except String (List IngresoGasto) := do
  let (ledger', _) ← IngresoGasto.create
    ⟨p.fecha_pago, .ingreso, "cuota_administracion",
      "Pago de cuota de administración", p.monto_pagado, p.pk, .registrado⟩ ledger
  .ok ledger'

/-- `PagoAdministracion._anular_ingreso`: voids every income row linked to
this payment, saving each one. -/
def PagoAdministracion.anularIngreso (p : PagoAdministracion)
    (ledger : List IngresoGasto) : Except String (List IngresoGasto) :=
  ledger.mapM (fun t =>
    if t.pago = p.pk ∧ t.tipo = .ingreso then
      IngresoGasto.save { t with estado := .anulado }
    else .ok t)

/-- `PagoAdministracion.save`.  `db_estado` is the `estado` stored in the
database for `self.id` (`none` = `DoesNotExist`; the `hasattr(self, "id")`
guard is always true for a Django model).  The ledger side effects run
before the row itself is written. -/
def PagoAdministracion.save (p : PagoAdministracion) (db_estado : Option EstadoPago)
    (ledger : List IngresoGasto) :
    Except String (PagoAdministracion × List IngresoGasto) := do
  -- `if not self.pk and not self.monto_pagado:` — fill in the fee value
  let p := if p.pk = none ∧ p.monto_pagado = 0 then
             { p with monto_pagado := p.cuota.calcular_valor_vivienda p.vivienda }
           else p
  -- confirmation registers the income
  let ledger ← if p.estado = .confirmado ∧
      (p.initial_values = none ∨ p.initialEstado ≠ some .confirmado) then
        p.registrarIngreso ledger
      else .ok ledger
  -- confirmed → rejected voids it
  let ledger ← if p.initial_values ≠ none ∧ p.initialEstado = some .confirmado ∧
      p.estado = .rechazado then
        p.anularIngreso ledger
      else .ok ledger
  let p := { p with initial_values := some db_estado }
  .ok (p, ledger)

/-! ## Theorems -/

/-- C2: `calcular_valor_con_mora` returns the base value
`valor_base * coeficiente_propiedad` (which agrees with
`Vivienda.calcular_valor_cuota`) when the due date is on or after the current
date, and that base value times `1 + recargo_mora / 100` when the due date is
strictly before it. -/
theorem C2_calcular_valor_con_mora (c : CuotaAdministracion) (v : Vivienda)
    (hoy : SimpleDate) :
    c.calcular_valor_con_mora v hoy =
      if dateLt c.fecha_vencimiento hoy then
        v.calcular_valor_cuota c * (1 + c.recargo_mora / 100)
      else v.calcular_valor_cuota c := by
  unfold CuotaAdministracion.calcular_valor_con_mora
    CuotaAdministracion.calcular_valor_vivienda CuotaAdministracion.esta_vencida
    Vivienda.calcular_valor_cuota
  split_ifs <;> ring

/-- C8: `notificar_propietario` delivers nothing: it returns the value of
`visible_para_propietario` and leaves the followup unchanged. -/
theorem C8_notificar_propietario (s : SeguimientoIncidencia) :
    s.notificar_propietario = (s.visible_para_propietario, s) := by
  unfold SeguimientoIncidencia.notificar_propietario
  cases h : s.visible_para_propietario <;> simp [h]

/-- C6: `IngresoGasto.save` raises `ValueError` exactly when `monto ≤ 0`;
otherwise it persists a `gasto` with the amount negated and an `ingreso`
with the amount unchanged. -/
theorem C6_ingreso_gasto_save (t : IngresoGasto) :
    (t.save = .error "El monto debe ser positivo" ↔ t.monto ≤ 0) ∧
    (0 < t.monto →
      t.save = .ok { t with monto := if t.tipo = .gasto then -t.monto else t.monto }) := by
  constructor
  · constructor
    · intro h
      by_contra hm
      push_neg at hm
      unfold IngresoGasto.save at h
      rw [if_neg (by linarith)] at h
      exact Except.noConfusion h
    · intro h
      unfold IngresoGasto.save
      rw [if_pos h]
  · intro h
    unfold IngresoGasto.save
    rw [if_neg (by linarith)]
    by_cases hg : t.tipo = .gasto
    · simp [hg, h]
    · simp [hg]

/-- C6 witness: a concrete expense of 5 is stored as −5. -/
theorem C6_witness :
    IngresoGasto.save ⟨⟨2026, 1, 1⟩, .gasto, "mantenimiento", "d", 5, none, .registrado⟩
      = .ok ⟨⟨2026, 1, 1⟩, .gasto, "mantenimiento", "d", -5, none, .registrado⟩ := by
  have h := (C6_ingreso_gasto_save
    ⟨⟨2026, 1, 1⟩, .gasto, "mantenimiento", "d", 5, none, .registrado⟩).2 (by norm_num)
  simpa using h

/-- C9: starting from a non-negative balance, `registrar_aporte` and
`registrar_uso` keep `monto_actual` non-negative: the former raises on a
non-positive amount and otherwise adds it recording an `ingreso` movement;
the latter raises on a non-positive amount or one above the balance and
otherwise subtracts it recording a `gasto` movement; a raise returns the
error without producing an updated fund. -/
theorem C9_fondo_reserva (f : FondoReserva) (monto : ℚ) (motivo : Option String)
    (descripcion : String) (hf : 0 ≤ f.monto_actual) :
    (monto ≤ 0 → f.registrar_aporte monto motivo = .error "El monto debe ser positivo") ∧
    (0 < monto →
      f.registrar_aporte monto motivo =
        .ok ({ f with monto_actual := f.monto_actual + monto },
          ⟨.ingreso, monto, orDefault motivo ("Aporte al fondo " ++ f.nombre)⟩) ∧
      0 ≤ f.monto_actual + monto) ∧
    (monto ≤ 0 → f.registrar_uso monto descripcion = .error "El monto debe ser positivo") ∧
    (0 < monto → f.monto_actual < monto →
      f.registrar_uso monto descripcion = .error "No hay suficiente dinero en el fondo") ∧
    (0 < monto → monto ≤ f.monto_actual →
      f.registrar_uso monto descripcion =
        .ok ({ f with monto_actual := f.monto_actual - monto }, ⟨.gasto, monto, descripcion⟩) ∧
      0 ≤ f.monto_actual - monto) := by
  refine ⟨?_, ?_, ?_, ?_, ?_⟩
  · intro h
    unfold FondoReserva.registrar_aporte
    rw [if_pos h]
  · intro h
    refine ⟨?_, by linarith⟩
    unfold FondoReserva.registrar_aporte
    rw [if_neg (by linarith)]
  · intro h
    unfold FondoReserva.registrar_uso
    rw [if_pos h]
  · intro h h2
    unfold FondoReserva.registrar_uso
    rw [if_neg (by linarith), if_pos (by linarith)]
  · intro h h2
    refine ⟨?_, by linarith⟩
    unfold FondoReserva.registrar_uso
    rw [if_neg (by linarith), if_neg (by linarith)]

/-- C9 witness: with a balance of 10, a contribution of 5 succeeds and the
balance stays non-negative. -/
theorem C9_witness :
    FondoReserva.registrar_aporte ⟨"Fondo", 10⟩ 5 none =
      .ok (⟨"Fondo", 15⟩, ⟨.ingreso, 5, "Aporte al fondo Fondo"⟩) ∧
    (0 : ℚ) ≤ 10 + 5 := by
  have h := ((C9_fondo_reserva ⟨"Fondo", 10⟩ 5 none "" (by norm_num)).2.1 (by norm_num))
  constructor
  · have h1 := h.1
    norm_num [orDefault] at h1 ⊢
    convert h1 using 2
  · norm_num

/-- C10: the reservation states `cancelada`, `completada` and `no_asistio`
are absorbing: each transition method returns `False` and leaves the
reservation unchanged. -/
theorem C10_estados_terminales (r : Reserva) (o : Option String) (empleado : Nat)
    (db_row : Option (SimpleDate × Nat × Nat)) (tarifa : ℚ) (now : Nat)
    (h : r.estado = .cancelada ∨ r.estado = .completada ∨ r.estado = .no_asistio) :
    r.cancelar o db_row tarifa now = (false, r) ∧
    r.confirmar empleado o db_row tarifa now = (false, r) ∧
    r.marcar_completada db_row tarifa now = (false, r) ∧
    r.marcar_no_asistio db_row tarifa now = (false, r) := by
  unfold Reserva.cancelar Reserva.confirmar Reserva.marcar_completada
    Reserva.marcar_no_asistio
  rcases h with h | h | h <;> simp [h]

/-- C10 witness: a cancelled reservation is untouched by all four methods. -/
theorem C10_witness :
    Reserva.cancelar ⟨some 1, ⟨2026, 10, 12⟩, 600, 660, .cancelada, none, none, none, 0, none⟩
        none none 0 0 =
      (false, ⟨some 1, ⟨2026, 10, 12⟩, 600, 660, .cancelada, none, none, none, 0, none⟩) ∧
    Reserva.confirmar ⟨some 1, ⟨2026, 10, 12⟩, 600, 660, .cancelada, none, none, none, 0, none⟩
        7 none none 0 0 =
      (false, ⟨some 1, ⟨2026, 10, 12⟩, 600, 660, .cancelada, none, none, none, 0, none⟩) ∧
    Reserva.marcar_completada
        ⟨some 1, ⟨2026, 10, 12⟩, 600, 660, .cancelada, none, none, none, 0, none⟩ none 0 0 =
      (false, ⟨some 1, ⟨2026, 10, 12⟩, 600, 660, .cancelada, none, none, none, 0, none⟩) ∧
    Reserva.marcar_no_asistio
        ⟨some 1, ⟨2026, 10, 12⟩, 600, 660, .cancelada, none, none, none, 0, none⟩ none 0 0 =
      (false, ⟨some 1, ⟨2026, 10, 12⟩, 600, 660, .cancelada, none, none, none, 0, none⟩) :=
  C10_estados_terminales _ none 7 none 0 0 (Or.inl rfl)

/-- C1: evaluation of the source's availability check at a concrete input.
An active area that takes reservations, with no operating hours configured,
has one confirmed reservation 08:00–09:00 on the requested date;
`esta_disponible` for the disjoint slot 10:00–11:00 returns `False`, while
the claimed overlap-only availability condition (`claimDisponible`) holds.
The third `Q` object of the collision filter compares each stored row's
columns with themselves via `models.F`, so it is satisfied by every
confirmed reservation of the date, contradicting the method's own
documentation and comments ("Alguna parte de la nueva reserva se traslapa
con una existente"). -/
theorem C1_esta_disponible_divergencia :
    AreaComun.esta_disponible ⟨true, true, none, none, 0⟩
        [⟨⟨2026, 10, 12⟩, 480, 540, .confirmada⟩] ⟨2026, 10, 12⟩ 600 660 = false ∧
    claimDisponible ⟨true, true, none, none, 0⟩
        [⟨⟨2026, 10, 12⟩, 480, 540, .confirmada⟩] ⟨2026, 10, 12⟩ 600 660 = true := by
  constructor <;> decide

/-- C4: `iniciar` succeeds exactly from `programado` (entering `en_proceso`
and stamping `fecha_inicio` with the current date); `finalizar` succeeds
exactly from `programado` or `en_proceso` (entering `finalizado` and
stamping `fecha_finalizacion`); `cancelar` succeeds exactly when the state
is neither `finalizado` nor `cancelado`; every failing call returns `False`
and leaves the record unchanged. -/
theorem C4_transiciones_mantenimiento (m : Mantenimiento) (hoy : SimpleDate)
    (costo_final : Option ℚ) (obs motivo : Option String) :
    ((m.iniciar hoy).1 = true ↔ m.estado = .programado) ∧
    (m.estado = .programado →
      (m.iniciar hoy).2.estado = .en_proceso ∧ (m.iniciar hoy).2.fecha_inicio = some hoy) ∧
    (m.estado ≠ .programado → m.iniciar hoy = (false, m)) ∧
    ((m.finalizar hoy costo_final obs).1 = true ↔
      (m.estado = .programado ∨ m.estado = .en_proceso)) ∧
    ((m.estado = .programado ∨ m.estado = .en_proceso) →
      (m.finalizar hoy costo_final obs).2.1.estado = .finalizado ∧
      (m.finalizar hoy costo_final obs).2.1.fecha_finalizacion = some hoy) ∧
    (¬(m.estado = .programado ∨ m.estado = .en_proceso) →
      m.finalizar hoy costo_final obs = (false, m, none)) ∧
    ((m.cancelar hoy motivo).1 = true ↔
      (m.estado ≠ .finalizado ∧ m.estado ≠ .cancelado)) ∧
    ((m.estado ≠ .finalizado ∧ m.estado ≠ .cancelado) →
      (m.cancelar hoy motivo).2.estado = .cancelado) ∧
    ((m.estado = .finalizado ∨ m.estado = .cancelado) → m.cancelar hoy motivo = (false, m)) := by
  refine ⟨?_, ?_, ?_, ?_, ?_, ?_, ?_, ?_, ?_⟩
  · unfold Mantenimiento.iniciar
    split_ifs with hg
    · simp [hg]
    · push_neg at hg
      simp [hg]
  · intro hp
    unfold Mantenimiento.iniciar
    rw [if_neg (by simp [hp])]
    constructor <;> simp [Mantenimiento.save]
  · intro hp
    unfold Mantenimiento.iniciar
    rw [if_pos hp]
  · unfold Mantenimiento.finalizar
    split_ifs with hg
    · simp
      tauto
    · push_neg at hg
      simp
      tauto
  · intro hp
    unfold Mantenimiento.finalizar
    rw [if_neg (by tauto)]
    rcases costo_final with _ | cf <;> rcases obs with _ | o <;>
      constructor <;>
      simp [Mantenimiento.save] <;>
      split_ifs <;>
      simp
  · intro hp
    unfold Mantenimiento.finalizar
    rw [if_pos (by tauto)]
  · unfold Mantenimiento.cancelar
    split_ifs with hg
    · simp
      tauto
    · push_neg at hg
      simp
      tauto
  · intro hp
    unfold Mantenimiento.cancelar
    rw [if_neg (by tauto)]
    rcases motivo with _ | mo
    · simp [Mantenimiento.save]
    · simp [Mantenimiento.save]
      split_ifs <;> simp
  · intro hp
    unfold Mantenimiento.cancelar
    rw [if_pos hp]

/-- C4 witness: a scheduled maintenance is started on 2026-10-12. -/
theorem C4_witness :
    (Mantenimiento.iniciar
        ⟨"Poda", .programado, none, none, none, none, none, none⟩ ⟨2026, 10, 12⟩).2.estado
      = .en_proceso ∧
    (Mantenimiento.iniciar
        ⟨"Poda", .programado, none, none, none, none, none, none⟩ ⟨2026, 10, 12⟩).2.fecha_inicio
      = some ⟨2026, 10, 12⟩ :=
  (C4_transiciones_mantenimiento
    ⟨"Poda", .programado, none, none, none, none, none, none⟩ ⟨2026, 10, 12⟩
    none none none).2.1 rfl

/-- C7 counterexample: a stored expense carries a negative `monto` (C6), so
`anular` on it propagates the `ValueError` of the internal `save` instead of
returning `True`. -/
theorem C7_counterexample :
    IngresoGasto.anular
        ⟨⟨2026, 1, 1⟩, .gasto, "mantenimiento", "Pintura", -100, none, .registrado⟩ none
      = .error "El monto debe ser positivo" := by
  rfl

/-- C7 (amended): `anular` returns `False` and changes nothing when the
transaction is already voided; otherwise, when the instance's `monto` is
positive, it marks the transaction `anulado`, appends the reason to the
description when one is given, saves and returns `True`; when `monto` is
not positive (as for any persisted `gasto`, stored negative) the internal
`save` raises `ValueError` instead. -/
theorem C7_anular (t : IngresoGasto) (motivo : Option String) :
    (t.estado = .anulado → t.anular motivo = .ok (false, t)) ∧
    (t.estado ≠ .anulado → 0 < t.monto →
      ∃ t', t.anular motivo = .ok (true, t') ∧ t'.estado = .anulado ∧
        t'.descripcion = (match motivo with
          | some m => if m ≠ "" then t.descripcion ++ "\n[ANULADO] " ++ m else t.descripcion
          | none => t.descripcion)) ∧
    (t.estado ≠ .anulado → t.monto ≤ 0 →
      t.anular motivo = .error "El monto debe ser positivo") := by
  refine ⟨?_, ?_, ?_⟩
  · intro h
    unfold IngresoGasto.anular
    rw [if_pos h]
  · intro h hm
    by_cases hg : t.tipo = .gasto <;>
      rcases motivo with _ | mo
    · refine ⟨{ t with estado := .anulado, monto := -t.monto }, ?_, rfl, rfl⟩
      simp [IngresoGasto.anular, IngresoGasto.save, h, hg, hm, not_le.mpr hm]
    · by_cases he : mo = ""
      · refine ⟨{ t with estado := .anulado, monto := -t.monto }, ?_, rfl, by simp [he]⟩
        simp [IngresoGasto.anular, IngresoGasto.save, h, hg, hm, not_le.mpr hm, he]
      · refine ⟨{ t with estado := .anulado, monto := -t.monto, descripcion := t.descripcion ++ "\n[ANULADO] " ++ mo }, ?_, rfl, by simp [he]⟩
        simp [IngresoGasto.anular, IngresoGasto.save, h, hg, hm, not_le.mpr hm, he]
    · refine ⟨{ t with estado := .anulado }, ?_, rfl, rfl⟩
      simp [IngresoGasto.anular, IngresoGasto.save, h, hg, hm, not_le.mpr hm]
    · by_cases he : mo = ""
      · refine ⟨{ t with estado := .anulado }, ?_, rfl, by simp [he]⟩
        simp [IngresoGasto.anular, IngresoGasto.save, h, hg, hm, not_le.mpr hm, he]
      · refine ⟨{ t with estado := .anulado, descripcion := t.descripcion ++ "\n[ANULADO] " ++ mo }, ?_, rfl, by simp [he]⟩
        simp [IngresoGasto.anular, IngresoGasto.save, h, hg, hm, not_le.mpr hm, he]
  · intro h hm
    rcases motivo with _ | mo
    · simp [IngresoGasto.anular, IngresoGasto.save, h, hm]
    · by_cases he : mo = ""
      · simp [IngresoGasto.anular, IngresoGasto.save, h, hm, he]
      · simp [IngresoGasto.anular, IngresoGasto.save, h, hm, he]

/-- C7 witness: a positive-amount income with a reason is voided. -/
theorem C7_witness :
    (∃ t', IngresoGasto.anular
        ⟨⟨2026, 1, 1⟩, .ingreso, "multa", "Multa", 50, none, .registrado⟩ (some "error")
      = .ok (true, t') ∧ t'.estado = .anulado ∧
      t'.descripcion = "Multa" ++ "\n[ANULADO] " ++ "error") := by
  have h := (C7_anular
    ⟨⟨2026, 1, 1⟩, .ingreso, "multa", "Multa", 50, none, .registrado⟩
    (some "error")).2.1 (by simp) (by norm_num)
  simpa using h

lemma daysInMonth_ge_28 (y m : Nat) : 28 ≤ daysInMonth y m := by
  unfold daysInMonth
  split_ifs <;> omega

lemma mkDate_eq_some {y m d : Nat} {x : SimpleDate} :
    mkDate y m d = some x ↔ validDate ⟨y, m, d⟩ ∧ x = ⟨y, m, d⟩ := by
  unfold mkDate
  split_ifs with h <;> simp [h, eq_comm]

lemma mensualExcept_eq (hoy : SimpleDate) (dm : Nat) :
    mensualExcept hoy dm =
      some ⟨nextAnio hoy, nextMes hoy,
        min dm (daysInMonth (nextAnio hoy) (nextMes hoy))⟩ := by
  unfold mensualExcept ultimo_dia_mes
  split_ifs with h
  · rfl
  · have h28 := daysInMonth_ge_28 (nextAnio hoy) (nextMes hoy)
    rw [Nat.min_eq_left (by omega)]

/-- C5 counterexample: for a monthly schedule with `dia_mes = 30` on
2026-01-31, the code returns 2026-02-28 (the clamped last day of February),
not a date whose day is `dia_mes` in the following month as the claim
states. -/
theorem C5_counterexample :
    calcular_proxima_fecha ⟨.mensual, none, some 30, none⟩ ⟨2026, 1, 31⟩
        = some ⟨2026, 2, 28⟩ ∧
    (⟨2026, 2, 28⟩ : SimpleDate).day ≠ 30 := by
  constructor <;> decide

/-- C5 (amended): `_calcular_proxima_fecha` returns the current date for
`diaria`; `None` for `semanal`/`quincenal` without `dia_semana`, for
`mensual` without `dia_mes`, and for `trimestral`/`semestral`/`anual`;
for `semanal` with `dia_semana = k` (1–7) the unique date within the next
7 days whose weekday index is `(k - 1) mod 7`; and for `mensual` with
`dia_mes` set, the date with that day in the current month when it exists
and is on or after today, otherwise the date in the following month whose
day is `dia_mes` clamped to that month's length. -/
theorem C5_calcular_proxima_fecha (p : ProgramacionMantenimiento)
    (hoy : SimpleDate) (hv : validDate hoy) :
    (p.frecuencia = .diaria → calcular_proxima_fecha p hoy = some hoy) ∧
    ((p.frecuencia = .semanal ∨ p.frecuencia = .quincenal) →
      pyTruthy p.dia_semana = false → calcular_proxima_fecha p hoy = none) ∧
    (∀ k, p.frecuencia = .semanal → p.dia_semana = some k → 1 ≤ k → k ≤ 7 →
      ∃ n, n ≤ 6 ∧ calcular_proxima_fecha p hoy = some (addDays hoy n) ∧
        weekday (addDays hoy n) = (k - 1) % 7 ∧
        ∀ j, j ≤ 6 → weekday (addDays hoy j) = (k - 1) % 7 → j = n) ∧
    (p.frecuencia = .mensual → pyTruthy p.dia_mes = false →
      calcular_proxima_fecha p hoy = none) ∧
    (∀ dm d, p.frecuencia = .mensual → p.dia_mes = some dm →
      mkDate hoy.year hoy.month dm = some d → ¬dateLt d hoy →
      calcular_proxima_fecha p hoy = some d) ∧
    (∀ dm, p.frecuencia = .mensual → p.dia_mes = some dm → 1 ≤ dm →
      (mkDate hoy.year hoy.month dm = none ∨
        (∃ d, mkDate hoy.year hoy.month dm = some d ∧ dateLt d hoy)) →
      calcular_proxima_fecha p hoy =
        some ⟨nextAnio hoy, nextMes hoy,
          min dm (daysInMonth (nextAnio hoy) (nextMes hoy))⟩) ∧
    ((p.frecuencia = .trimestral ∨ p.frecuencia = .semestral ∨ p.frecuencia = .anual) →
      calcular_proxima_fecha p hoy = none) := by
  refine ⟨?_, ?_, ?_, ?_, ?_, ?_, ?_⟩
  · intro hf
    simp only [calcular_proxima_fecha, hf]
  · intro hf ht
    rcases hf with hf | hf <;> simp only [calcular_proxima_fecha, hf, ht] <;> simp
  · intro k hf hds hk1 hk7
    have hw7 : weekday hoy < 7 := weekday_lt_7 hoy
    have hkt : pyTruthy p.dia_semana = true := by
      simp [pyTruthy, hds]
      omega
    have h0 : (0 : Int) ≤ ((k : Int) - (weekday hoy : Int) - 1) % 7 :=
      Int.emod_nonneg _ (by norm_num)
    have h7 : ((k : Int) - (weekday hoy : Int) - 1) % 7 < 7 :=
      Int.emod_lt_of_pos _ (by norm_num)
    refine ⟨((((k : Int) - (weekday hoy : Int) - 1) % 7)).toNat, by omega, ?_, ?_, ?_⟩
    · simp only [calcular_proxima_fecha, hf, hkt, hds, Option.getD_some]
      simp [pyTruthy]
      omega
    · rw [weekday_addDays hv]
      omega
    · intro j hj hwj
      rw [weekday_addDays hv] at hwj
      omega
  · intro hf ht
    simp only [calcular_proxima_fecha, hf, ht]
    simp
  · intro dm d hf hdm hmk hlt
    obtain ⟨hval, hd⟩ := mkDate_eq_some.mp hmk
    have hdm1 : 1 ≤ dm := hval.2.2.2.1
    have hkt : pyTruthy p.dia_mes = true := by
      simp [pyTruthy, hdm]
      omega
    simp only [calcular_proxima_fecha, hf, hkt, hdm, Option.getD_some, hmk]
    rw [if_neg (by simp [pyTruthy]; omega)]
    rw [if_neg hlt]
  · intro dm hf hdm hdm1 hcase
    have hkt : pyTruthy p.dia_mes = true := by
      simp [pyTruthy, hdm]
      omega
    simp only [calcular_proxima_fecha, hf, hkt, hdm, Option.getD_some]
    rw [if_neg (by simp [pyTruthy]; omega)]
    rcases hcase with hnone | ⟨d, hsome, hlt⟩
    · rw [hnone]
      exact mensualExcept_eq hoy dm
    · rw [hsome]
      simp only
      rw [if_pos hlt]
      by_cases h12 : hoy.month = 12
      · simp only [h12, if_true]
        cases hadv : mkDate (hoy.year + 1) 1 dm with
        | some p2 =>
            obtain ⟨hval2, hp2⟩ := mkDate_eq_some.mp hadv
            subst hp2
            have hmin : min dm (daysInMonth (nextAnio hoy) (nextMes hoy)) = dm := by
              rw [Nat.min_eq_left]
              unfold nextAnio nextMes
              rw [if_pos h12, if_pos h12]
              exact hval2.2.2.2.2
            rw [hmin]
            unfold nextAnio nextMes
            rw [if_pos h12, if_pos h12]
        | none =>
            exact mensualExcept_eq hoy dm
      · simp only [h12, if_false]
        cases hadv : mkDate hoy.year (hoy.month + 1) dm with
        | some p2 =>
            obtain ⟨hval2, hp2⟩ := mkDate_eq_some.mp hadv
            subst hp2
            have hmin : min dm (daysInMonth (nextAnio hoy) (nextMes hoy)) = dm := by
              rw [Nat.min_eq_left]
              unfold nextAnio nextMes
              rw [if_neg h12, if_neg h12]
              exact hval2.2.2.2.2
            rw [hmin]
            unfold nextAnio nextMes
            rw [if_neg h12, if_neg h12]
        | none =>
            exact mensualExcept_eq hoy dm
  · intro hf
    rcases hf with hf | hf | hf <;> simp only [calcular_proxima_fecha, hf]

/-- C5 witness: a daily schedule on 2026-10-12 yields 2026-10-12. -/
theorem C5_witness :
    calcular_proxima_fecha ⟨.diaria, none, none, none⟩ ⟨2026, 10, 12⟩
      = some ⟨2026, 10, 12⟩ :=
  (C5_calcular_proxima_fecha ⟨.diaria, none, none, none⟩ ⟨2026, 10, 12⟩ (by decide)).1 rfl

lemma except_bind_ok {ε α β : Type} (a : α) (f : α → Except ε β) :
    (Except.ok a : Except ε α) >>= f = f a := rfl

lemma anularIngreso_eq (p : PagoAdministracion) (ledger : List IngresoGasto)
    (hled : ∀ t ∈ ledger, t.tipo = .ingreso → 0 < t.monto) :
    p.anularIngreso ledger = .ok (ledger.map (fun t =>
      if t.pago = p.pk ∧ t.tipo = .ingreso then { t with estado := .anulado } else t)) := by
  induction ledger with
  | nil => rfl
  | cons t ts ih =>
      have ht := hled t (List.mem_cons_self t ts)
      have hts : ∀ u ∈ ts, u.tipo = .ingreso → 0 < u.monto :=
        fun u hu => hled u (List.mem_cons_of_mem t hu)
      unfold PagoAdministracion.anularIngreso at ih ⊢
      rw [List.mapM_cons, ih hts, List.map_cons]
      by_cases hc : t.pago = p.pk ∧ t.tipo = .ingreso
      · have hsave : IngresoGasto.save { t with estado := EstadoTransaccion.anulado }
            = .ok { t with estado := EstadoTransaccion.anulado } := by
          unfold IngresoGasto.save
          rw [if_neg (by simp; linarith [ht hc.2])]
          rw [if_neg (by simp [hc.2])]
        rw [if_pos hc, if_pos hc, hsave]
        rfl
      · rw [if_neg hc, if_neg hc]
        rfl

/-- C3 counterexample: a payment confirmed with a non-positive
`monto_pagado` makes the ledger insert raise `ValueError`, so no
`IngresoGasto` is created. -/
theorem C3_counterexample :
    PagoAdministracion.save
        ⟨some 1, ⟨1⟩, ⟨100, ⟨2026, 1, 31⟩, 5⟩, ⟨2026, 2, 1⟩, -5, .confirmado, none⟩ none []
      = .error "El monto debe ser positivo" := by
  rfl

/-- C3 (amended): provided `monto_pagado` is positive, saving a payment
whose `estado` is `confirmado` and that was not already confirmed appends
exactly one `ingreso` ledger row with category `cuota_administracion`, the
payment's date, amount and key; saving a previously confirmed payment now
`rechazado` sets `anulado` on every `ingreso` row of the payment; any other
save leaves the ledger unchanged.  (With `monto_pagado ≤ 0` the insert
raises `ValueError` and creates nothing.) -/
theorem C3_pago_ledger (p : PagoAdministracion) (db_estado : Option EstadoPago)
    (ledger : List IngresoGasto) (hm : 0 < p.monto_pagado)
    (hled : ∀ t ∈ ledger, t.tipo = .ingreso → 0 < t.monto) :
    (p.estado = .confirmado →
      (p.initial_values = none ∨ p.initialEstado ≠ some .confirmado) →
      p.save db_estado ledger = .ok ({ p with initial_values := some db_estado },
        ledger ++ [⟨p.fecha_pago, .ingreso, "cuota_administracion",
          "Pago de cuota de administración", p.monto_pagado, p.pk, .registrado⟩])) ∧
    (p.initial_values ≠ none → p.initialEstado = some .confirmado →
      p.estado = .rechazado →
      p.save db_estado ledger = .ok ({ p with initial_values := some db_estado },
        ledger.map (fun t =>
          if t.pago = p.pk ∧ t.tipo = .ingreso then { t with estado := .anulado } else t))) ∧
    (¬(p.estado = .confirmado ∧
        (p.initial_values = none ∨ p.initialEstado ≠ some .confirmado)) →
      ¬(p.initial_values ≠ none ∧ p.initialEstado = some .confirmado ∧
        p.estado = .rechazado) →
      p.save db_estado ledger = .ok ({ p with initial_values := some db_estado }, ledger)) := by
  have hne : ¬(p.pk = none ∧ p.monto_pagado = 0) := by
    rintro ⟨-, h0⟩
    rw [h0] at hm
    exact lt_irrefl 0 hm
  refine ⟨?_, ?_, ?_⟩
  · intro h1 h2
    have hc2 : ¬(p.initial_values ≠ none ∧ p.initialEstado = some .confirmado ∧
        p.estado = .rechazado) := by
      rintro ⟨-, -, hr⟩
      rw [h1] at hr
      exact EstadoPago.noConfusion hr
    rcases h2 with h2 | h2 <;>
      · simp [PagoAdministracion.save, PagoAdministracion.registrarIngreso,
          IngresoGasto.create, IngresoGasto.save, hne, h1, h2, hc2, not_le.mpr hm]
        rfl
  · intro h1 h2 h3
    have hc1 : ¬(p.estado = .confirmado ∧
        (p.initial_values = none ∨ p.initialEstado ≠ some .confirmado)) := by
      rintro ⟨hconf, -⟩
      rw [h3] at hconf
      exact EstadoPago.noConfusion hconf
    have han := anularIngreso_eq p ledger hled
    simp [PagoAdministracion.save, hne, hc1, h1, h2, h3, han, except_bind_ok]
    try rfl
  · intro hc1 hc2
    simp [PagoAdministracion.save, hne, hc1, hc2]
    try rfl

/-- C3 witness: confirming a fresh payment of 100 appends exactly one
matching income row to an empty ledger. -/
theorem C3_witness :
    PagoAdministracion.save
        ⟨some 1, ⟨1⟩, ⟨100, ⟨2026, 1, 31⟩, 5⟩, ⟨2026, 2, 1⟩, 100, .confirmado, none⟩
        (some .registrado) []
      = .ok (⟨some 1, ⟨1⟩, ⟨100, ⟨2026, 1, 31⟩, 5⟩, ⟨2026, 2, 1⟩, 100, .confirmado,
          some (some .registrado)⟩,
        [⟨⟨2026, 2, 1⟩, .ingreso, "cuota_administracion",
          "Pago de cuota de administración", 100, some 1, .registrado⟩]) := by
  have h := (C3_pago_ledger
    ⟨some 1, ⟨1⟩, ⟨100, ⟨2026, 1, 31⟩, 5⟩, ⟨2026, 2, 1⟩, 100, .confirmado, none⟩
    (some .registrado) [] (by norm_num) (by simp)).1 rfl (Or.inl rfl)
  simpa using h

end Altavista
